import Mathlib

/-!
Verification of the vulkan-tinker repository against its specification.

The development shallowly embeds the C++ sources:
  - `src/src/raii.hpp`   : the generic move-only ownership wrapper `raii::UniqueHandle`.
  - `src/src/vulkan.hpp` : swapchain negotiation (image count, extent), physical-device
    selection, `acquireNextImageKHR`, `queueSubmit`, `presentQueue`, `Fence`.
  - `src/src/main.cpp`   : the render loop (frame index cycling, fence protocol,
    command-buffer recording, invalidation recovery).

Machine integers are modelled as `Nat`/`Int`; wrap-around is made explicit (`% 2 ^ w`)
exactly where the C++ arithmetic can wrap.  GPU/driver responses (VkResult codes,
surface capabilities, queue-family tables) are oracle inputs to the embedded functions,
mirroring the out-parameters and return codes of the Vulkan calls.
-/

namespace VulkanTinker

/-! ## raii.hpp : UniqueHandle

`raii::UniqueHandle<CRTP, T, kNil>` stores one value `t_` of scalar handle type `T`
(Vulkan handles are pointers or 64-bit ids; we model values as `Int`, with C++
truthiness of a scalar being `≠ 0`).  The sentinel `kNil` is a template parameter,
so operations take it as an explicit argument.  Destroy invocations are recorded as
the list of values passed to the CRTP `destroy` hook. -/

structure UniqueHandle where
  t : Int
deriving DecidableEq

/-- `UniqueHandle::maybeDestroy` (raii.hpp:50-54): the guard is `if (t_)`,
i.e. C++ truthiness of the stored scalar (`t_ != 0`), not `t_ != kNil`.
Returns the list of values passed to `destroy`. -/
def maybeDestroy (h : UniqueHandle) : List Int :=
  if h.t ≠ 0 then [h.t] else []

/-- `UniqueHandle::~UniqueHandle` (raii.hpp:28-30): just `maybeDestroy()`. -/
def destructorCalls (h : UniqueHandle) : List Int :=
  maybeDestroy h

/-- Move constructor (raii.hpp:18): `t_{std::exchange(other.t_, kNil)}`.
Given the sentinel and the source handle, returns (constructed handle, moved-from
source).  No destroy call occurs. -/
def moveConstruct (kNil : Int) (other : UniqueHandle) : UniqueHandle × UniqueHandle :=
  (⟨other.t⟩, ⟨kNil⟩)

/-- Move assignment (raii.hpp:20-26): `if (this != &other) { maybeDestroy();
t_ = std::exchange(other.t_, kNil); }`.  `isSelf` models the pointer-identity test
`this == &other`; when it holds the whole body is skipped.  Returns
(new target, new source, destroy calls made). -/
def moveAssign (kNil : Int) (self other : UniqueHandle) (isSelf : Bool) :
    UniqueHandle × UniqueHandle × List Int :=
  if isSelf then (self, other, [])
  else (⟨other.t⟩, ⟨kNil⟩, maybeDestroy self)

/-- `UniqueHandle::reset` (raii.hpp:44-47): `maybeDestroy(); t_ = kNil;`. -/
def resetHandle (kNil : Int) (h : UniqueHandle) : UniqueHandle × List Int :=
  (⟨kNil⟩, maybeDestroy h)

/-- C3 (code_bug): the claim states that for every instantiation — any type `T` and
any nil sentinel `kNil` — destroy is never invoked with the nil value.  The code
violates this for any truthy sentinel: `maybeDestroy` guards with `if (t_)` (value
different from zero) instead of `t_ != kNil`.  Failing input: `kNil = 5`, a handle
owning `7` is moved from; the moved-from handle holds the sentinel `5`, and its
destructor invokes `destroy(5)` — a destroy call on the nil sentinel. -/
theorem uniqueHandle_destroys_nil_sentinel :
    ((moveConstruct 5 ⟨7⟩).2).t = 5 ∧
    destructorCalls ((moveConstruct 5 ⟨7⟩).2) = [5] := by
  constructor
  · rfl
  · decide

/-- C8 (confirmed): after move-construction from `a` (owning `v`) into `b`, `a`
denotes the nil sentinel, destroying `a` invokes no destroy operation, and `b` owns
`v`.  Every handle instantiated in this repository (Instance, Device, and every
ParentedUniqueHandle) uses the default value-initialized sentinel, i.e. the
null/zero handle, modelled here as `0`. -/
theorem moveConstruct_transfers (v : Int) :
    ((moveConstruct 0 ⟨v⟩).1).t = v ∧
    ((moveConstruct 0 ⟨v⟩).2).t = 0 ∧
    destructorCalls ((moveConstruct 0 ⟨v⟩).2) = [] := by
  refine ⟨rfl, rfl, ?_⟩
  simp [destructorCalls, maybeDestroy, moveConstruct]

/-- C8 witness at `v = 7`. -/
theorem moveConstruct_transfers_witness :
    ((moveConstruct 0 ⟨7⟩).1).t = 7 ∧
    ((moveConstruct 0 ⟨7⟩).2).t = 0 ∧
    destructorCalls ((moveConstruct 0 ⟨7⟩).2) = [] :=
  moveConstruct_transfers 7

/-- C9 (confirmed): self-move-assignment takes the `this == &other` branch
(raii.hpp:21), which skips the body entirely: the handle still holds the same value
and no destroy call occurs, for every sentinel and every stored value. -/
theorem moveAssign_self_noop (kNil : Int) (h : UniqueHandle) :
    moveAssign kNil h h true = (h, h, []) := by
  rfl

/-- C9 witness at `kNil = 0`, handle owning `7`. -/
theorem moveAssign_self_noop_witness :
    moveAssign 0 ⟨7⟩ ⟨7⟩ true = (⟨7⟩, ⟨7⟩, []) :=
  moveAssign_self_noop 0 ⟨7⟩

/-! ## vulkan.hpp : Swapchain negotiation (image count and extent)

`Swapchain::Swapchain` (vulkan.hpp:239-298) fills a `VkSwapchainCreateInfoKHR` from
the surface capabilities reported by the driver.  We embed the two negotiated fields
the claims are about: `minImageCount` (vulkan.hpp:259) and `imageExtent`
(vulkan.hpp:262-272).  `uint32_t` quantities are `Nat`; the only arithmetic is
`minImageCount + 1`, identical on both the code and spec side, so wrap-around is
immaterial to the comparison. -/

structure Extent2D where
  width : Nat
  height : Nat
deriving DecidableEq

structure SurfaceCaps where
  minImageCount : Nat
  maxImageCount : Nat
  currentExtent : Extent2D
  minImageExtent : Extent2D
  maxImageExtent : Extent2D
deriving DecidableEq

/-- The `uint32_t` maximum, `std::numeric_limits<uint32_t>::max()`. -/
def uint32Max : Nat := 4294967295

/-- `std::clamp(v, lo, hi)`: `v < lo ? lo : (hi < v ? hi : v)`. -/
def clampNat (v lo hi : Nat) : Nat :=
  if v < lo then lo else if hi < v then hi else v

/-- The requested image count (vulkan.hpp:259):
`(caps.minImageCount == caps.maxImageCount) ? caps.maxImageCount : caps.minImageCount + 1`. -/
def imageCount (minC maxC : Nat) : Nat :=
  if minC = maxC then maxC else minC + 1

/-- Modelled from the spec: image count is `minImageCount + 1`, capped at
`maxImageCount` if that bound is nonzero (zero denotes unbounded) and equal to
`minImageCount` when min equals max. -/
def imageCountSpec (minC maxC : Nat) : Nat :=
  if minC = maxC then minC
  else if maxC ≠ 0 then min (minC + 1) maxC
  else minC + 1

/-- C4 (confirmed): the requested image count agrees with the spec formula.  The
hypothesis is the Vulkan guarantee on `VkSurfaceCapabilitiesKHR`: `maxImageCount`
is either zero (unbounded) or at least `minImageCount`. -/
theorem imageCount_eq_spec (minC maxC : Nat) (h : maxC = 0 ∨ minC ≤ maxC) :
    imageCount minC maxC = imageCountSpec minC maxC := by
  unfold imageCount imageCountSpec
  rcases h with h | h <;> split <;> (try split) <;> omega

/-- C4 witness at `minImageCount = 2`, `maxImageCount = 3`. -/
theorem imageCount_eq_spec_witness :
    (3 = 0 ∨ 2 ≤ 3) ∧ imageCount 2 3 = imageCountSpec 2 3 :=
  ⟨Or.inr (by decide), imageCount_eq_spec 2 3 (Or.inr (by decide))⟩

/-- The swapchain extent (vulkan.hpp:262-272): if the reported current extent's
width differs from `uint32Max`, use the current extent; otherwise clamp the window
framebuffer size componentwise into the min/max image extents. -/
def chooseExtent (caps : SurfaceCaps) (fbW fbH : Nat) : Extent2D :=
  if caps.currentExtent.width ≠ uint32Max then caps.currentExtent
  else ⟨clampNat fbW caps.minImageExtent.width caps.maxImageExtent.width,
        clampNat fbH caps.minImageExtent.height caps.maxImageExtent.height⟩

/-- The "any extent allowed" sentinel of the Vulkan surface capabilities:
both components equal to the `uint32_t` maximum. -/
def sentinelExtent : Extent2D := ⟨uint32Max, uint32Max⟩

/-- C6 (confirmed): the extent equals the surface's current extent whenever that is
not the "any extent allowed" sentinel, and otherwise is the framebuffer size clamped
componentwise into the min/max bounds.  The hypothesis is the Vulkan guarantee that
`currentExtent` is either the full sentinel or a regular extent (the code tests only
the width component against the sentinel). -/
theorem chooseExtent_spec (caps : SurfaceCaps) (fbW fbH : Nat)
    (hvk : caps.currentExtent.width = uint32Max → caps.currentExtent = sentinelExtent) :
    (caps.currentExtent ≠ sentinelExtent → chooseExtent caps fbW fbH = caps.currentExtent) ∧
    (caps.currentExtent = sentinelExtent →
      chooseExtent caps fbW fbH =
        ⟨clampNat fbW caps.minImageExtent.width caps.maxImageExtent.width,
         clampNat fbH caps.minImageExtent.height caps.maxImageExtent.height⟩) := by
  constructor
  · intro hns
    unfold chooseExtent
    split
    · rfl
    · next hw =>
      exact absurd (hvk (by simpa using hw)) hns
  · intro hs
    unfold chooseExtent
    split
    · next hw => exact absurd (by rw [hs]; rfl) hw
    · rfl

/-- C6 witness: a capability response with the sentinel current extent and a
framebuffer size outside the bounds clamps into the bounds, and a non-sentinel
response is taken as is. -/
theorem chooseExtent_spec_witness :
    chooseExtent ⟨2, 3, sentinelExtent, ⟨100, 100⟩, ⟨200, 200⟩⟩ 5000 50 = ⟨200, 100⟩ ∧
    chooseExtent ⟨2, 3, ⟨640, 480⟩, ⟨100, 100⟩, ⟨200, 200⟩⟩ 5000 50 = ⟨640, 480⟩ := by
  constructor
  · have h := chooseExtent_spec ⟨2, 3, sentinelExtent, ⟨100, 100⟩, ⟨200, 200⟩⟩ 5000 50
      (by intro _; rfl)
    rw [h.2 rfl]
    decide
  · have h := chooseExtent_spec ⟨2, 3, ⟨640, 480⟩, ⟨100, 100⟩, ⟨200, 200⟩⟩ 5000 50
      (by intro hw; exact absurd hw (by decide))
    exact h.1 (by decide)

/-! ## vulkan.hpp : physical-device selection

`Device::Device` (vulkan.hpp:136-200) scans the enumerated physical devices in
order.  For each it checks the required extensions (`all_of`/`any_of` by name),
rejects devices with an empty surface present-mode or format set, looks for the
first queue family with the graphics bit (`find_if`), and then scans the families
forward for the first one reporting surface-presentation support.  A device is
modelled by the driver responses those calls would return; extension names are
abstract identifiers. -/

structure QueueFamily where
  graphics : Bool
  present : Bool
deriving DecidableEq

structure PhysDevice where
  exts : List Nat
  presentModes : List Nat
  formats : List Nat
  families : List QueueFamily
deriving DecidableEq

/-- The extension check (vulkan.hpp:141-147): every required name occurs among the
device's available extensions. -/
def extsOk (req : List Nat) (d : PhysDevice) : Bool :=
  req.all (fun r => d.exts.any (fun e => e = r))

/-- Forward linear scan for the first element satisfying `p`
(`std::ranges::find_if` plus `std::distance`, and the indexed `for` loop at
vulkan.hpp:162-167). -/
def firstIdx (p : QueueFamily → Bool) : List QueueFamily → Option Nat
  | [] => none
  | qf :: rest => if p qf then some 0 else (firstIdx p rest).map (fun k => k + 1)

/-- The device-selection loop (vulkan.hpp:139-170): first device passing the
extension check with nonempty present-mode and format sets, a graphics family and a
presentation family; returns that device with the first graphics family index and
the first presenting family index, or `none` (the code throws the
no-suitable-device error, vulkan.hpp:169). -/
def pickDevice (req : List Nat) : List PhysDevice → Option (PhysDevice × Nat × Nat)
  | [] => none
  | d :: rest =>
    if extsOk req d then
      if d.presentModes.isEmpty || d.formats.isEmpty then pickDevice req rest
      else
        match firstIdx (fun qf => qf.graphics) d.families with
        | none => pickDevice req rest
        | some g =>
          match firstIdx (fun qf => qf.present) d.families with
          | none => pickDevice req rest
          | some p => some (d, g, p)
    else pickDevice req rest

/-- Modelled from the spec: a device is suitable iff the required extensions are
present, the surface present-mode and format sets are non-empty, some queue family
has the graphics capability bit, and some queue family reports surface-presentation
support. -/
def suitableSpec (req : List Nat) (d : PhysDevice) : Bool :=
  extsOk req d && !d.presentModes.isEmpty && !d.formats.isEmpty &&
    d.families.any (fun qf => qf.graphics) && d.families.any (fun qf => qf.present)

/-- Modelled from the spec: selection returns the first suitable device in
enumeration order, paired with the first graphics-capable family index and the
first presentation-capable family index. -/
def pickDeviceSpec (req : List Nat) (ds : List PhysDevice) :
    Option (PhysDevice × Nat × Nat) :=
  (ds.find? (fun d => suitableSpec req d)).bind fun d =>
    (firstIdx (fun qf => qf.graphics) d.families).bind fun g =>
      (firstIdx (fun qf => qf.present) d.families).map fun p => (d, g, p)

theorem firstIdx_isSome (p : QueueFamily → Bool) (l : List QueueFamily) :
    (firstIdx p l).isSome = l.any p := by
  induction l with
  | nil => rfl
  | cons qf rest ih =>
    by_cases h : p qf <;> simp [firstIdx, h, ih]

/-- C5 (confirmed): the selection loop is exactly the spec's policy — the first
device (in enumeration order) satisfying all four suitability conditions, with the
first graphics family and the first presenting family found by forward linear scan
— and it fails (returns `none`, the no-suitable-device error) precisely when no
device qualifies. -/
theorem pickDevice_eq_spec (req : List Nat) (ds : List PhysDevice) :
    pickDevice req ds = pickDeviceSpec req ds ∧
    (pickDevice req ds = none ↔ ∀ d ∈ ds, suitableSpec req d = false) := by
  have main : pickDevice req ds = pickDeviceSpec req ds := by
    induction ds with
    | nil => rfl
    | cons d rest ih =>
      by_cases he : extsOk req d
      · by_cases hm : (d.presentModes.isEmpty || d.formats.isEmpty) = true
        · have hs : suitableSpec req d = false := by
            rcases Bool.or_eq_true_iff.mp hm with h1 | h1 <;>
              simp [suitableSpec, h1]
          simp [pickDevice, pickDeviceSpec, he, hm, hs, List.find?_cons] at ih ⊢
          exact ih
        · cases hg : firstIdx (fun qf => qf.graphics) d.families with
          | none =>
            have hag : d.families.any (fun qf => qf.graphics) = false := by
              have := firstIdx_isSome (fun qf => qf.graphics) d.families
              rw [hg] at this
              simpa using this.symm
            have hs : suitableSpec req d = false := by
              simp [suitableSpec, hag]
            simp [pickDevice, pickDeviceSpec, he, hm, hg, hs, List.find?_cons] at ih ⊢
            exact ih
          | some g =>
            cases hp : firstIdx (fun qf => qf.present) d.families with
            | none =>
              have hap : d.families.any (fun qf => qf.present) = false := by
                have := firstIdx_isSome (fun qf => qf.present) d.families
                rw [hp] at this
                simpa using this.symm
              have hs : suitableSpec req d = false := by
                simp [suitableSpec, hap]
              simp [pickDevice, pickDeviceSpec, he, hm, hg, hp, hs, List.find?_cons] at ih ⊢
              exact ih
            | some p =>
              have hag : d.families.any (fun qf => qf.graphics) = true := by
                have := firstIdx_isSome (fun qf => qf.graphics) d.families
                rw [hg] at this
                simpa using this.symm
              have hap : d.families.any (fun qf => qf.present) = true := by
                have := firstIdx_isSome (fun qf => qf.present) d.families
                rw [hp] at this
                simpa using this.symm
              have hm1 : d.presentModes.isEmpty = false := by
                cases h : d.presentModes.isEmpty
                · rfl
                · exact absurd (by simp [h]) hm
              have hm2 : d.formats.isEmpty = false := by
                cases h : d.formats.isEmpty
                · rfl
                · exact absurd (by simp [h]) hm
              have hs : suitableSpec req d = true := by
                simp [suitableSpec, he, hm1, hm2, hag, hap]
              simp [pickDevice, pickDeviceSpec, he, hm, hg, hp, hs, List.find?_cons]
      · have hs : suitableSpec req d = false := by
          simp [suitableSpec, he]
        simp [pickDevice, pickDeviceSpec, he, hs, List.find?_cons] at ih ⊢
        exact ih
  refine ⟨main, ?_⟩
  rw [main]
  constructor
  · intro hnone d hd
    by_contra hne
    have hsuit : suitableSpec req d = true := by
      cases h : suitableSpec req d
      · exact absurd h hne
      · rfl
    obtain ⟨d0, hfind, hsuit0⟩ :
        ∃ d0, ds.find? (fun x => suitableSpec req x) = some d0 ∧
          suitableSpec req d0 = true := by
      cases hf : ds.find? (fun x => suitableSpec req x) with
      | none =>
        exact absurd hsuit (by simpa using List.find?_eq_none.mp hf d hd)
      | some d0 =>
        exact ⟨d0, rfl, by simpa using List.find?_some hf⟩
    have hag : (firstIdx (fun qf => qf.graphics) d0.families).isSome = true := by
      rw [firstIdx_isSome]
      simp only [suitableSpec, Bool.and_eq_true] at hsuit0
      exact hsuit0.1.2
    have hap : (firstIdx (fun qf => qf.present) d0.families).isSome = true := by
      rw [firstIdx_isSome]
      simp only [suitableSpec, Bool.and_eq_true] at hsuit0
      exact hsuit0.2
    obtain ⟨g, hg⟩ := Option.isSome_iff_exists.mp hag
    obtain ⟨p, hp⟩ := Option.isSome_iff_exists.mp hap
    rw [pickDeviceSpec, hfind] at hnone
    simp [hg, hp] at hnone
  · intro hall
    have : ds.find? (fun x => suitableSpec req x) = none :=
      List.find?_eq_none.mpr (by intro d hd; simp [hall d hd])
    simp [pickDeviceSpec, this]

/-- C5 witness: two devices; the first lacks a presentation-capable family, the
second qualifies with graphics family 0 and present family 1. -/
theorem pickDevice_eq_spec_witness :
    pickDevice [4] [⟨[4], [1], [1], [⟨true, false⟩]⟩,
                    ⟨[4], [1], [1], [⟨true, false⟩, ⟨false, true⟩]⟩] =
      some (⟨[4], [1], [1], [⟨true, false⟩, ⟨false, true⟩]⟩, 0, 1) ∧
    pickDevice [4] [⟨[4], [1], [1], [⟨true, false⟩]⟩,
                    ⟨[4], [1], [1], [⟨true, false⟩, ⟨false, true⟩]⟩] =
      pickDeviceSpec [4] [⟨[4], [1], [1], [⟨true, false⟩]⟩,
                          ⟨[4], [1], [1], [⟨true, false⟩, ⟨false, true⟩]⟩] :=
  ⟨by decide,
   (pickDevice_eq_spec [4] [⟨[4], [1], [1], [⟨true, false⟩]⟩,
      ⟨[4], [1], [1], [⟨true, false⟩, ⟨false, true⟩]⟩]).1⟩

/-! ## vulkan.hpp / main.cpp : acquire, submit, present and the render loop

The relevant `VkResult` codes returned by the driver are an oracle input.
`vk::acquireNextImageKHR` (vulkan.hpp:73-84) maps them to a returned image index or
to one of two exceptions; `vk::queueSubmit` (vulkan.hpp:641-665) throws on any
non-success result; `vk::presentQueue` (vulkan.hpp:629-639) calls
`vkQueuePresentKHR` and discards its result.  The loop body (main.cpp:126-152)
catches only `vk::OutOfDateError`, on which it idles the device, rebuilds the
render info and resets the frame index to zero. -/

inductive VkResult
  | success
  | suboptimalKHR
  | errorOutOfDateKHR
  | otherError
deriving DecidableEq

inductive AcquireOutcome
  | acquired (idx : Nat)
  | outOfDateErr
  | runtimeErr
deriving DecidableEq

/-- `vk::acquireNextImageKHR<ErrorOnSuboptimal>` (vulkan.hpp:73-84): success — or
suboptimal under the lenient policy — returns the image index; out-of-date — or
suboptimal under the strict policy — throws `OutOfDateError`; anything else throws
a plain runtime error.  `main.cpp` instantiates the default, strict policy. -/
def acquireNextImageKHR (errorOnSuboptimal : Bool) (res : VkResult) (idx : Nat) :
    AcquireOutcome :=
  if res = VkResult.success ∨ (res = VkResult.suboptimalKHR ∧ ¬errorOnSuboptimal) then
    AcquireOutcome.acquired idx
  else if res = VkResult.errorOutOfDateKHR ∨
      (res = VkResult.suboptimalKHR ∧ errorOnSuboptimal) then
    AcquireOutcome.outOfDateErr
  else
    AcquireOutcome.runtimeErr

/-- `vk::queueSubmit` (vulkan.hpp:658-664): throws unless `vkQueueSubmit` returns
success.  `true` means the call returned normally. -/
def queueSubmitOk (res : VkResult) : Bool :=
  res = VkResult.success

/-- `vk::presentQueue` (vulkan.hpp:629-639): builds the present info and calls
`vkQueuePresentKHR`; the returned `VkResult` is discarded, so the call never
throws and never reports anything. -/
def presentQueue (res : VkResult) : Unit := ()

/-- The frame-index advance (main.cpp:142-144):
`if (++frameIdx >= renderInfo->imageViews.size()) frameIdx = 0;`.
`FrameIndex` is `uint_fast8_t`, an unsigned type of platform width `w ≥ 8`; the
increment wraps at `M = 2 ^ w`. -/
def advanceIdx (M n i : Nat) : Nat :=
  if (i + 1) % M ≥ n then 0 else (i + 1) % M

/-- Outcome of one render-loop iteration as observed by the caller. -/
inductive IterOutcome
  | nextFrame (idx : Nat)
  | recreate
  | fatal
deriving DecidableEq

/-- One iteration of the render loop's control flow (main.cpp:133-152), driven by
the driver's result codes: the acquire outcome decides between the normal path,
the catch of `OutOfDateError` (swapchain recreation, frame index reset), and a
fatal escape; on the normal path a failed submit is fatal, and the present result
is passed to `presentQueue`, which ignores it. -/
def loopBody (strict : Bool) (M n frameIdx : Nat) (acqRes : VkResult) (acqIdx : Nat)
    (submitRes presentRes : VkResult) : IterOutcome :=
  match acquireNextImageKHR strict acqRes acqIdx with
  | AcquireOutcome.outOfDateErr => IterOutcome.recreate
  | AcquireOutcome.runtimeErr => IterOutcome.fatal
  | AcquireOutcome.acquired _ =>
    if queueSubmitOk submitRes then
      let _ := presentQueue presentRes
      IterOutcome.nextFrame (advanceIdx M n frameIdx)
    else
      IterOutcome.fatal

/-- C2 counterexample: a present call reporting out-of-date does not trigger the
recreation protocol — `presentQueue` discards the result, so the iteration simply
advances to the next frame.  Concrete input: a 2-image chain at frame 0, successful
acquire of image 1, successful submit, present reporting
`VK_ERROR_OUT_OF_DATE_KHR`. -/
theorem present_out_of_date_ignored :
    loopBody true 256 2 0 VkResult.success 1 VkResult.success VkResult.errorOutOfDateKHR =
      IterOutcome.nextFrame 1 ∧
    IterOutcome.nextFrame 1 ≠ IterOutcome.recreate := by
  decide

/-- C2 (corrected): an out-of-date result — or, under the strict policy, a
suboptimal result — reported by the acquire call triggers the swapchain recreation
protocol and loop restart and does not propagate past the render loop; the present
call's result is ignored entirely (it signals neither invalidation nor failure);
all other acquire failures and all submission failures are fatal. -/
theorem loop_invalidation_policy (strict : Bool) (M n i k : Nat)
    (s p p1 p2 : VkResult) (a : VkResult) :
    loopBody strict M n i VkResult.errorOutOfDateKHR k s p = IterOutcome.recreate ∧
    loopBody true M n i VkResult.suboptimalKHR k s p = IterOutcome.recreate ∧
    loopBody strict M n i VkResult.otherError k s p = IterOutcome.fatal ∧
    loopBody strict M n i VkResult.success k VkResult.otherError p = IterOutcome.fatal ∧
    loopBody strict M n i VkResult.success k VkResult.errorOutOfDateKHR p = IterOutcome.fatal ∧
    loopBody strict M n i VkResult.success k VkResult.suboptimalKHR p = IterOutcome.fatal ∧
    loopBody strict M n i a k s p1 = loopBody strict M n i a k s p2 ∧
    loopBody strict M n i VkResult.success k VkResult.success p =
      IterOutcome.nextFrame (advanceIdx M n i) := by
  cases strict <;> cases a <;>
    simp [loopBody, acquireNextImageKHR, queueSubmitOk, presentQueue]

/-- C2 witness at concrete inputs. -/
theorem loop_invalidation_policy_witness :
    loopBody true 256 2 0 VkResult.errorOutOfDateKHR 1 VkResult.success VkResult.success =
      IterOutcome.recreate ∧
    loopBody true 256 2 0 VkResult.success 1 VkResult.otherError VkResult.success =
      IterOutcome.fatal :=
  ⟨(loop_invalidation_policy true 256 2 0 1 VkResult.success VkResult.success
      VkResult.success VkResult.success VkResult.success).1,
   (loop_invalidation_policy true 256 2 0 1 VkResult.otherError VkResult.success
      VkResult.success VkResult.success VkResult.success).2.2.2.1⟩

/-! ## main.cpp : frame-index cycling (C7) -/

inductive Outcome
  | success
  | invalidated
deriving DecidableEq

/-- The frame index after one iteration (main.cpp:133-152): advanced with wrap
after a successful submit+present, reset to zero when the acquire call threw
`OutOfDateError` and the swapchain was recreated. -/
def stepFrame (M n i : Nat) : Outcome → Nat
  | Outcome.success => advanceIdx M n i
  | Outcome.invalidated => 0

/-- The frame index after `k` consecutive successful iterations starting from 0. -/
def frameAfter (M n : Nat) : Nat → Nat
  | 0 => 0
  | k + 1 => stepFrame M n (frameAfter M n k) Outcome.success

theorem advanceIdx_eq_mod (M n i : Nat) (hn : 0 < n) (hnM : n ≤ M) (hi : i < n) :
    advanceIdx M n i = (i + 1) % n := by
  unfold advanceIdx
  rcases Nat.lt_or_ge (i + 1) M with hlt | hge
  · rw [Nat.mod_eq_of_lt hlt]
    rcases Nat.lt_or_ge (i + 1) n with h2 | h2
    · rw [if_neg (by omega), Nat.mod_eq_of_lt h2]
    · have : i + 1 = n := by omega
      rw [if_pos (by omega), this, Nat.mod_self]
  · have hM : i + 1 = M := by omega
    have hn' : n = M := by omega
    rw [hM, Nat.mod_self, if_neg (by omega), hn', Nat.mod_self]

theorem frameAfter_eq_mod (M n : Nat) (hn : 0 < n) (hnM : n ≤ M) :
    ∀ k, k ≤ n → frameAfter M n k = k % n := by
  intro k
  induction k with
  | zero => intro _; simp [frameAfter]
  | succ k ih =>
    intro hk
    have hk' : k ≤ n := Nat.le_of_succ_le hk
    rw [frameAfter, ih hk']
    show advanceIdx M n (k % n) = (k + 1) % n
    rw [advanceIdx_eq_mod M n (k % n) hn hnM (Nat.mod_lt k hn), Nat.mod_add_mod]

/-- C7 (confirmed): from a frame index `i < n` (`n` the image count), a successful
submit+present advances the index by one modulo `n` (so the index stays in
`[0, n)`), an invalidated iteration resets it to 0, and `n` consecutive successful
iterations from 0 return it to 0.  `M = 2 ^ w` is the wrap modulus of the
`uint_fast8_t` counter (`M ≥ 256 ≥ n` for any realistic image count). -/
theorem frameIndex_cycles (M n i : Nat) (hn : 0 < n) (hnM : n ≤ M) (hi : i < n) :
    stepFrame M n i Outcome.success = (i + 1) % n ∧
    stepFrame M n i Outcome.success < n ∧
    stepFrame M n i Outcome.invalidated = 0 ∧
    frameAfter M n n = 0 := by
  refine ⟨advanceIdx_eq_mod M n i hn hnM hi, ?_, rfl, ?_⟩
  · rw [show stepFrame M n i Outcome.success = advanceIdx M n i from rfl,
      advanceIdx_eq_mod M n i hn hnM hi]
    exact Nat.mod_lt _ hn
  · rw [frameAfter_eq_mod M n hn hnM n (Nat.le_refl n), Nat.mod_self]

/-- C7 witness at `M = 256`, `n = 3`, `i = 1`. -/
theorem frameIndex_cycles_witness :
    stepFrame 256 3 1 Outcome.success = 2 ∧ frameAfter 256 3 3 = 0 :=
  ⟨(frameIndex_cycles 256 3 1 (by decide) (by decide) (by decide)).1,
   (frameIndex_cycles 256 3 1 (by decide) (by decide) (by decide)).2.2.2⟩

/-! ## main.cpp : command recording (C1)

`render` (main.cpp:56-105) records a fixed command sequence into the buffer; the
render pass is begun with `renderInfo.framebuffers[idx]` where `idx` is the
function's `FrameIndex` parameter.  The call site (main.cpp:137) passes `frameIdx`
— the CPU-side frame counter — while the present call (main.cpp:140) passes
`imgIdx`, the index returned by the acquire call. -/

inductive Cmd
  | resetBuffer
  | beginBuffer
  | beginRenderPass (framebufferIdx : Nat)
  | bindPipeline
  | setViewport (w h : Nat)
  | setScissor (w h : Nat)
  | draw (vertexCount instanceCount firstVertex firstInstance : Nat)
  | endRenderPass
  | endBuffer
  | submit
  | present (imageIdx : Nat)
deriving DecidableEq

/-- The command sequence recorded by `render` (main.cpp:56-105) for frame-index
parameter `idx` and swapchain extent `extW × extH`: the render pass is begun with
`framebuffers[idx]`, and the draw is the fixed 3-vertex/1-instance call. -/
def renderCmds (idx extW extH : Nat) : List Cmd :=
  [Cmd.resetBuffer, Cmd.beginBuffer, Cmd.beginRenderPass idx, Cmd.bindPipeline,
   Cmd.setViewport extW extH, Cmd.setScissor extW extH, Cmd.draw 3 1 0 0,
   Cmd.endRenderPass, Cmd.endBuffer]

/-- The commands of one successful loop iteration (main.cpp:134-140): `render` is
invoked with `frameIdx` (main.cpp:137), then the submit, then the present of the
acquired index `imgIdx` (main.cpp:140). -/
def iterationCmds (frameIdx imgIdx extW extH : Nat) : List Cmd :=
  renderCmds frameIdx extW extH ++ [Cmd.submit, Cmd.present imgIdx]

/-- The framebuffer index with which the render pass is begun, if any. -/
def boundFramebuffer : List Cmd → Option Nat
  | [] => none
  | Cmd.beginRenderPass i :: _ => some i
  | _ :: rest => boundFramebuffer rest

/-- C1 (code_bug): in an iteration where the CPU-side frame index is 0 and the
acquire call returned image index 1, the render pass is begun with
`framebuffers[0]` — the framebuffer at the CPU-side FrameIndex — while image 1 is
the one presented; the claim (and the Vulkan protocol) requires `framebuffers[1]`.
The slip is at main.cpp:137, which passes `frameIdx` instead of `imgIdx` to
`render`. -/
theorem renderPass_uses_frameIdx_not_imageIdx :
    boundFramebuffer (iterationCmds 0 1 640 480) = some 0 ∧
    Cmd.present 1 ∈ iterationCmds 0 1 640 480 ∧
    boundFramebuffer (iterationCmds 0 1 640 480) ≠ some 1 := by
  decide

/-! ## main.cpp : fence protocol around an invalidated acquire (C10)

Per-slot `cmdBufferReady` fence states: `signaled` and, once submitted work is in
flight, `pending` (the GPU will signal the fence on completion;
`SynchronizedCommandBuffer` creates the fence pre-signaled, main.cpp:18).  The
operations an iteration performs on fences are recorded as a trace:
`Fence::wait` (vulkan.hpp:618-621) blocks until the fence is signaled;
`Fence::reset` (vulkan.hpp:623-626) unsignals it; `vkQueueSubmit` with the fence
makes it pending; `vkDeviceWaitIdle` (main.cpp:149) completes all pending work. -/

structure FenceState where
  signaled : Bool
  pending : Bool
deriving DecidableEq

inductive FenceOp
  | waitF (i : Nat)
  | resetF (i : Nat)
  | submitF (i : Nat)
  | waitIdle
deriving DecidableEq

/-- Effect of one fence operation on the per-slot fence states.  A completed
`waitF` leaves the fence signaled with no pending work (the wait can only return
once in-flight work has signaled the fence); `resetF` unsignals; `submitF` puts
work in flight; `waitIdle` drains all in-flight work, signaling its fences. -/
def applyOp (f : Nat → FenceState) : FenceOp → Nat → FenceState
  | FenceOp.waitF i => fun j => if j = i then ⟨true, false⟩ else f j
  | FenceOp.resetF i => fun j => if j = i then ⟨false, (f i).pending⟩ else f j
  | FenceOp.submitF i => fun j => if j = i then ⟨(f i).signaled, true⟩ else f j
  | FenceOp.waitIdle => fun j => ⟨(f j).signaled || (f j).pending, false⟩

def runOps (f : Nat → FenceState) : List FenceOp → Nat → FenceState
  | [] => f
  | op :: rest => runOps (applyOp f op) rest

inductive AcquireRes
  | acquired (idx : Nat)
  | outOfDate
deriving DecidableEq

/-- The fence operations of one loop iteration at slot `i` (main.cpp:129-152):
always the initial `cmdBufferReady.wait()`; on a successful acquire the fence is
reset (main.cpp:135) and then handed to `vkQueueSubmit` (main.cpp:139); when the
acquire throws `OutOfDateError`, the catch block only idles the device
(main.cpp:149) — no reset, no submit. -/
def iterFenceOps (i : Nat) : AcquireRes → List FenceOp
  | AcquireRes.acquired _ => [FenceOp.waitF i, FenceOp.resetF i, FenceOp.submitF i]
  | AcquireRes.outOfDate => [FenceOp.waitF i, FenceOp.waitIdle]

/-- The frame index after the iteration (main.cpp:142-151): advanced on success,
reset to 0 in the catch block. -/
def iterNextIdx (M n i : Nat) : AcquireRes → Nat
  | AcquireRes.acquired _ => advanceIdx M n i
  | AcquireRes.outOfDate => 0

def isResetOp : FenceOp → Bool
  | FenceOp.resetF _ => true
  | _ => false

/-- C10 (confirmed): when the acquire call raises out-of-date, the iteration
performs no fence reset, the current slot's fence ends the iteration signaled with
nothing pending, the frame index becomes 0, and — given the loop invariant that
every slot's fence is signaled or has work in flight — every fence (in particular
slot 0's, the slot of the following iteration) is signaled at the end of the
iteration, so the fence wait at the start of the next iteration succeeds
immediately. -/
theorem acquire_outOfDate_keeps_fence (f : Nat → FenceState) (M n i : Nat)
    (hinv : ∀ j, (f j).signaled = true ∨ (f j).pending = true) :
    (iterFenceOps i AcquireRes.outOfDate).all (fun op => isResetOp op = false) ∧
    runOps f (iterFenceOps i AcquireRes.outOfDate) i = ⟨true, false⟩ ∧
    iterNextIdx M n i AcquireRes.outOfDate = 0 ∧
    (∀ j, (runOps f (iterFenceOps i AcquireRes.outOfDate) j).signaled = true) := by
  refine ⟨by simp [iterFenceOps, isResetOp], ?_, rfl, ?_⟩
  · simp [iterFenceOps, runOps, applyOp]
  · intro j
    by_cases hji : j = i
    · simp [iterFenceOps, runOps, applyOp, hji]
    · rcases hinv j with h | h <;> simp [iterFenceOps, runOps, applyOp, hji, h]

/-- C10 witness: two pre-signaled slots, out-of-date acquire at slot 1. -/
theorem acquire_outOfDate_keeps_fence_witness :
    (∀ j : Nat, ((fun _ => (⟨true, false⟩ : FenceState)) j).signaled = true ∨
      ((fun _ => (⟨true, false⟩ : FenceState)) j).pending = true) ∧
    (runOps (fun _ => ⟨true, false⟩) (iterFenceOps 1 AcquireRes.outOfDate) 0).signaled
      = true :=
  ⟨fun _ => Or.inl rfl,
   (acquire_outOfDate_keeps_fence (fun _ => ⟨true, false⟩) 256 2 1
      (fun _ => Or.inl rfl)).2.2.2 0⟩

end VulkanTinker
